import Mathlib

/-!
Verification development for the Bifrost WASM plugin example
(examples/plugins/hello-world-wasm-rust): a shallow embedding of
memory.rs (pack_result), types.rs (the hook contract schemas and their
serde codecs) and lib.rs (the four hook entry points, init, and the
error-context helper), together with theorems about the hook contract.

JSON payloads are modelled as trees (the serde_json::Value layer); the
text-parse layer (serde_json::from_str) is external to the repository
and is modelled by passing the parse outcome (`Except String Json`) to
each hook: `.ok j` when the input bytes parsed to the tree `j`, and
`.error e` when text parsing failed with message `e`.
-/

namespace Bifrost

/-- JSON values as trees (serde_json::Value). Numbers are modelled as
integers; the floating-point cases of serde_json::Number are not needed
by any definition below. Objects are association lists in entry order;
serde_json's map normalization (duplicate keys, key ordering) is applied
where the source applies it (HashMap-backed fields), and JSON values kept
as raw serde_json::Value are carried verbatim. -/
inductive Json where
  | null : Json
  | bool (b : Bool) : Json
  | num (n : Int) : Json
  | str (s : String) : Json
  | arr (elems : List Json) : Json
  | obj (fields : List (String × Json)) : Json

/-- Insert-or-overwrite on an association list: the semantics of
HashMap::insert (overwrite an existing key in place, else append). -/
def insertKV {α : Type} (m : List (String × α)) (k : String) (v : α) : List (String × α) :=
  if m.any (fun p => p.1 == k) then m.map (fun p => if p.1 == k then (k, v) else p)
  else m ++ [(k, v)]

/-- Build a map from JSON object entries in order, later duplicates
overwriting earlier ones: the semantics of collecting entries into a
HashMap (`while let Some(entry) = map.next_entry() { insert }`). -/
def normalizeKV {α : Type} (fs : List (String × α)) : List (String × α) :=
  fs.foldl (fun m kv => insertKV m kv.1 kv.2) []

/-- Number of occurrences of a key among a struct's JSON object entries. -/
def countKey (fs : List (String × Json)) (k : String) : Nat :=
  (fs.filter (fun p => p.1 == k)).length

/-- Look up a known struct field among JSON object entries: serde's derived
struct deserializers error on a duplicate known field and ignore unknown
keys; a missing field is reported as `none`. -/
def fieldOnce (fs : List (String × Json)) (k : String) : Except String (Option Json) :=
  if 2 ≤ countKey fs k then .error ("duplicate field " ++ k)
  else .ok ((fs.find? (fun p => p.1 == k)).map Prod.snd)

/-- Decode a struct field carrying serde(default): a missing key yields the
default, a present value runs the field's deserializer. -/
def fieldWith {α : Type} (fs : List (String × Json)) (k : String)
    (dec : Json → Except String α) (dflt : α) : Except String α :=
  match fieldOnce fs k with
  | .error e => .error e
  | .ok none => .ok dflt
  | .ok (some v) => dec v

/-- BifrostContext (types.rs): a transparent map from string keys to
arbitrary JSON values (HashMap<String, serde_json::Value>), modelled as a
normalized association list. -/
structure BifrostContext where
  entries : List (String × Json)

/-- BifrostContext::set_value — insert or overwrite a key. -/
def BifrostContext.set_value (c : BifrostContext) (k : String) (v : Json) : BifrostContext :=
  ⟨insertKV c.entries k v⟩

/-- Deserialize for BifrostContext: serde(transparent) over
HashMap<String, Value> — a JSON object (any other value, including null,
is an invalid-type error). -/
def decodeBifrostContext : Json → Except String BifrostContext
  | .obj fs => .ok ⟨normalizeKV fs⟩
  | _ => .error "invalid type: expected a map"

/-- Serialize for BifrostContext: serde(transparent) — a plain JSON object
whose keys are exactly the map's keys, with no wrapper envelope. -/
def encodeBifrostContext (c : BifrostContext) : Json :=
  .obj c.entries

/-- nullable::string (types.rs): Option::<String>::deserialize then
unwrap_or_default — null becomes the empty string. -/
def nullableString : Json → Except String String
  | .null => .ok ""
  | .str s => .ok s
  | _ => .error "invalid type: expected a string or null"

/-- Deserialize an Option<String> value: null is None, a string is Some. -/
def decodeOptString : Json → Except String (Option String)
  | .null => .ok none
  | .str s => .ok (some s)
  | _ => .error "invalid type: expected a string or null"

/-- nullable::string_map (types.rs): deserialize as
Option<HashMap<String, Option<String>>> (null for the whole map yields the
empty map, entries collect into a HashMap with later duplicates winning),
then filter out entries whose value was null. -/
def nullableStringMap (j : Json) : Except String (List (String × String)) :=
  match j with
  | .null => .ok []
  | .obj fs =>
    match decodeOptStrEntries fs with
    | .error e => .error e
    | .ok entries =>
      .ok ((normalizeKV entries).filterMap (fun p => p.2.map (fun v => (p.1, v))))
  | _ => .error "invalid type: expected a map or null"
where
  decodeOptStrEntries : List (String × Json) → Except String (List (String × Option String))
    | [] => .ok []
    | (k, v) :: rest =>
      match decodeOptString v with
      | .error e => .error e
      | .ok ov =>
        match decodeOptStrEntries rest with
        | .error e => .error e
        | .ok tail => .ok ((k, ov) :: tail)

/-- nullable::i32_field (types.rs): Option::<i32>::deserialize then
unwrap_or_default — null becomes 0; the value must be an integer in the
i32 range. -/
def nullableI32 : Json → Except String Int
  | .null => .ok 0
  | .num n => if -(2 ^ 31) ≤ n ∧ n < 2 ^ 31 then .ok n else .error "number out of range of i32"
  | _ => .error "invalid type: expected an integer or null"

/-- Deserialize a serde_json::Value field: every JSON value is accepted
verbatim. (serde_json's own map normalization for duplicate object keys
is elided: the hooks only carry these values through unchanged.) -/
def decodeValue (j : Json) : Except String Json :=
  .ok j

/-- Deserialize a bool field: only JSON booleans are accepted. -/
def decodeBool : Json → Except String Bool
  | .bool b => .ok b
  | _ => .error "invalid type: expected a boolean"

/-- HTTPRequest (types.rs): transport-layer request; every field carries
serde(default) with a nullable deserializer. -/
structure HTTPRequest where
  method : String
  path : String
  headers : List (String × String)
  query : List (String × String)
  body : String

/-- Default for HTTPRequest (derive(Default)). -/
def HTTPRequest.dflt : HTTPRequest :=
  ⟨"", "", [], [], ""⟩

/-- Deserialize for HTTPRequest from a JSON object (the struct form used
on the wire; serde's exotic sequence form for structs is not modelled). -/
def decodeHTTPRequest : Json → Except String HTTPRequest
  | .obj fs => do
    let method ← fieldWith fs "method" nullableString ""
    let path ← fieldWith fs "path" nullableString ""
    let headers ← fieldWith fs "headers" nullableStringMap []
    let query ← fieldWith fs "query" nullableStringMap []
    let body ← fieldWith fs "body" nullableString ""
    .ok ⟨method, path, headers, query, body⟩
  | _ => .error "invalid type: expected struct HTTPRequest"

/-- Serialize for HTTPRequest (derive(Serialize), snake_case fields). -/
def encodeHTTPRequest (r : HTTPRequest) : Json :=
  .obj [("method", .str r.method), ("path", .str r.path),
        ("headers", .obj (r.headers.map (fun p => (p.1, .str p.2)))),
        ("query", .obj (r.query.map (fun p => (p.1, .str p.2)))),
        ("body", .str r.body)]

/-- nullable::http_request (types.rs): null becomes the default request. -/
def nullableHttpRequest (j : Json) : Except String HTTPRequest :=
  match j with
  | .null => .ok HTTPRequest.dflt
  | _ => decodeHTTPRequest j

/-- nullable::context (types.rs): null becomes the default (empty) context. -/
def nullableContext (j : Json) : Except String BifrostContext :=
  match j with
  | .null => .ok ⟨[]⟩
  | _ => decodeBifrostContext j

/-- HTTPResponse (types.rs). -/
structure HTTPResponse where
  status_code : Int
  headers : List (String × String)
  body : String

/-- HTTPInterceptInput (types.rs): both fields use serde(default) with a
nullable deserializer. -/
structure HTTPInterceptInput where
  context : BifrostContext
  request : HTTPRequest

/-- Deserialize for HTTPInterceptInput. -/
def decodeHTTPInterceptInput : Json → Except String HTTPInterceptInput
  | .obj fs => do
    let context ← fieldWith fs "context" nullableContext ⟨[]⟩
    let request ← fieldWith fs "request" nullableHttpRequest HTTPRequest.dflt
    .ok ⟨context, request⟩
  | _ => .error "invalid type: expected struct HTTPInterceptInput"

/-- HTTPInterceptOutput (types.rs). -/
structure HTTPInterceptOutput where
  context : BifrostContext
  request : Option Json
  response : Option HTTPResponse
  has_response : Bool
  error : String

/-- ChatMessageRole (types.rs). -/
inductive ChatMessageRole where
  | User : ChatMessageRole
  | Assistant : ChatMessageRole
  | System : ChatMessageRole
  | Tool : ChatMessageRole
  | Developer : ChatMessageRole

/-- ImageUrl (types.rs): url is required, detail is optional. -/
structure ImageUrl where
  url : String
  detail : Option String

/-- ChatContentBlock (types.rs): the "type" key is required; text and
image_url are optional and skipped when absent. -/
structure ChatContentBlock where
  block_type : String
  text : Option String
  image_url : Option ImageUrl

/-- ChatMessageContent (types.rs): serde(untagged) — either plain text or
an ordered list of content blocks. -/
inductive ChatMessageContent where
  | Text (s : String) : ChatMessageContent
  | Blocks (blocks : List ChatContentBlock) : ChatMessageContent

/-- Serialize for ImageUrl: detail is skipped when none. -/
def encodeImageUrl (u : ImageUrl) : Json :=
  .obj (("url", .str u.url) ::
    (match u.detail with
     | none => []
     | some d => [("detail", .str d)]))

/-- Deserialize for ImageUrl: url is a required string, detail an
optional string (null or missing both give none). -/
def decodeImageUrl : Json → Except String ImageUrl
  | .obj fs => do
    let url ←
      match ← fieldOnce fs "url" with
      | none => Except.error "missing field url"
      | some v =>
        match v with
        | .str s => Except.ok s
        | _ => Except.error "invalid type: expected a string"
    let detail ← fieldWith fs "detail" decodeOptString none
    .ok ⟨url, detail⟩
  | _ => .error "invalid type: expected struct ImageUrl"

/-- Deserialize an Option<ImageUrl> value. -/
def decodeOptImageUrl (j : Json) : Except String (Option ImageUrl) :=
  match j with
  | .null => .ok none
  | _ => (decodeImageUrl j).map some

/-- Serialize for ChatContentBlock: block_type is written under the key
"type"; optional fields are skipped when none. -/
def encodeBlock (b : ChatContentBlock) : Json :=
  .obj (("type", .str b.block_type) ::
    ((match b.text with
      | none => []
      | some t => [("text", .str t)]) ++
     (match b.image_url with
      | none => []
      | some u => [("image_url", encodeImageUrl u)])))

/-- Deserialize for ChatContentBlock: "type" is required, the optional
fields default to none when missing. -/
def decodeBlock : Json → Except String ChatContentBlock
  | .obj fs => do
    let bt ←
      match ← fieldOnce fs "type" with
      | none => Except.error "missing field type"
      | some v =>
        match v with
        | .str s => Except.ok s
        | _ => Except.error "invalid type: expected a string"
    let text ← fieldWith fs "text" decodeOptString none
    let image_url ← fieldWith fs "image_url" decodeOptImageUrl none
    .ok ⟨bt, text, image_url⟩
  | _ => .error "invalid type: expected struct ChatContentBlock"

/-- Deserialize a list of content blocks elementwise. -/
def decodeBlocks : List Json → Except String (List ChatContentBlock)
  | [] => .ok []
  | j :: rest => do
    let b ← decodeBlock j
    let bs ← decodeBlocks rest
    .ok (b :: bs)

/-- The Blocks alternative of the untagged enum: only a JSON array whose
elements all decode as content blocks. -/
def decodeBlockList : Json → Except String (List ChatContentBlock)
  | .arr xs => decodeBlocks xs
  | _ => .error "invalid type: expected a sequence"

/-- Serialize for ChatMessageContent (untagged): text as a JSON string,
blocks as a JSON array. -/
def encodeChatMessageContent : ChatMessageContent → Json
  | .Text s => .str s
  | .Blocks bs => .arr (bs.map encodeBlock)

/-- Deserialize for ChatMessageContent: serde(untagged) tries the variants
in declaration order — Text succeeds exactly on JSON strings, otherwise
Blocks is attempted, otherwise the untagged-enum error is produced. -/
def decodeChatMessageContent (j : Json) : Except String ChatMessageContent :=
  match j with
  | .str s => .ok (.Text s)
  | _ =>
    match decodeBlockList j with
    | .ok bs => .ok (.Blocks bs)
    | .error _ => .error "data did not match any variant of untagged enum ChatMessageContent"

/-- ToolCallFunction (types.rs). -/
structure ToolCallFunction where
  name : Option String
  arguments : String

/-- ToolCall (types.rs): call_type is written under the key "type". -/
structure ToolCall where
  id : Option String
  call_type : Option String
  function : ToolCallFunction

/-- ChatMessage (types.rs). -/
structure ChatMessage where
  role : ChatMessageRole
  content : Option ChatMessageContent
  name : Option String
  tool_call_id : Option String
  tool_calls : Option (List ToolCall)

/-- LLMUsage (types.rs). -/
structure LLMUsage where
  prompt_tokens : Int
  completion_tokens : Int
  total_tokens : Int
  prompt_tokens_details : Option Json
  completion_tokens_details : Option Json

/-- ResponseChoice (types.rs). -/
structure ResponseChoice where
  index : Int
  message : Option ChatMessage
  delta : Option ChatMessage
  finish_reason : Option String
  logprobs : Option Json

/-- BifrostChatResponse (types.rs). -/
structure BifrostChatResponse where
  id : String
  model : String
  choices : List ResponseChoice
  usage : Option LLMUsage
  created : Option Int
  object : Option String
  system_fingerprint : Option String

/-- BifrostResponse (types.rs): unified response with a flattened
catch-all map of extra fields. -/
structure BifrostResponse where
  chat_response : Option BifrostChatResponse
  extra : List (String × Json)

/-- ErrorField (types.rs): error_type is written under the key "type". -/
structure ErrorField where
  message : String
  error_type : Option String
  code : Option String
  param : Option String

/-- BifrostError (types.rs). -/
structure BifrostError where
  error : ErrorField
  status_code : Option Int
  allow_fallbacks : Option Bool

/-- PluginShortCircuit (types.rs): a synthesized response or error. -/
structure PluginShortCircuit where
  response : Option BifrostResponse
  error : Option BifrostError

/-- PreHookInput (types.rs): context carries plain serde(default) — unlike
HTTPInterceptInput it does NOT use nullable::context, so missing defaults
to the empty map but an explicit null is an invalid-type error; request is
a raw serde_json::Value (defaulting to null when missing). -/
structure PreHookInput where
  context : BifrostContext
  request : Json

/-- Deserialize for PreHookInput. -/
def decodePreHookInput : Json → Except String PreHookInput
  | .obj fs => do
    let context ← fieldWith fs "context" decodeBifrostContext ⟨[]⟩
    let request ← fieldWith fs "request" decodeValue .null
    .ok ⟨context, request⟩
  | _ => .error "invalid type: expected struct PreHookInput"

/-- PreHookOutput (types.rs). -/
structure PreHookOutput where
  context : BifrostContext
  request : Option Json
  short_circuit : Option PluginShortCircuit
  has_short_circuit : Bool
  error : String

/-- PostHookInput (types.rs): context carries plain serde(default);
response and error are raw serde_json::Value fields. -/
structure PostHookInput where
  context : BifrostContext
  response : Json
  error : Json
  has_error : Bool

/-- Deserialize for PostHookInput. -/
def decodePostHookInput : Json → Except String PostHookInput
  | .obj fs => do
    let context ← fieldWith fs "context" decodeBifrostContext ⟨[]⟩
    let response ← fieldWith fs "response" decodeValue .null
    let error ← fieldWith fs "error" decodeValue .null
    let has_error ← fieldWith fs "has_error" decodeBool false
    .ok ⟨context, response, error, has_error⟩
  | _ => .error "invalid type: expected struct PostHookInput"

/-- PostHookOutput (types.rs). -/
structure PostHookOutput where
  context : BifrostContext
  response : Option Json
  error : Option Json
  has_error : Bool
  hook_error : String

/-- HTTPStreamChunkHookInput (types.rs). -/
structure HTTPStreamChunkHookInput where
  context : BifrostContext
  request : Json
  chunk : Json

/-- Deserialize for HTTPStreamChunkHookInput. -/
def decodeStreamChunkInput : Json → Except String HTTPStreamChunkHookInput
  | .obj fs => do
    let context ← fieldWith fs "context" decodeBifrostContext ⟨[]⟩
    let request ← fieldWith fs "request" decodeValue .null
    let chunk ← fieldWith fs "chunk" decodeValue .null
    .ok ⟨context, request, chunk⟩
  | _ => .error "invalid type: expected struct HTTPStreamChunkHookInput"

/-- HTTPStreamChunkHookOutput (types.rs). -/
structure HTTPStreamChunkHookOutput where
  context : BifrostContext
  chunk : Option Json
  has_chunk : Bool
  skip : Bool
  error : String

/-- PluginConfig (types.rs): a flattened open map — deserializes from any
JSON object; anything else is an invalid-type error. -/
structure PluginConfig where
  values : List (String × Json)

/-- Deserialize for PluginConfig. -/
def decodePluginConfig : Json → Except String PluginConfig
  | .obj fs => .ok ⟨normalizeKV fs⟩
  | _ => .error "invalid type: expected a map"

/-- pack_result (memory.rs): fold a 32-bit pointer and a 32-bit length
into one u64 — pointer in the upper 32 bits, length in the lower 32.
Inputs are u32 values (naturals below 2^32); the arithmetic is u64. -/
def pack_result (ptr len : Nat) : Nat :=
  ((ptr <<< 32) ||| len) % 2 ^ 64

/-- Modelled from the spec: the host-side unpack of a packed transport
value — the offset is the high 32-bit half and the length the low 32-bit
half. The host runtime is outside this repository; the spec defines
unpacking as taking the two 32-bit halves. -/
def unpack (v : Nat) : Nat × Nat :=
  (v >>> 32, v % 2 ^ 32)

/-- Parse a usize from a digit token, as str::parse::<usize> does on the
digit-only tokens that occur in serde error messages (an optional sign and
overflow rejection are elided: the parsed columns here are small). -/
def parseUsize (cs : List Char) : Option Nat :=
  if cs = [] then none
  else if cs.all Char.isDigit then
    some (cs.foldl (fun n c => n * 10 + (c.toNat - 48)) 0)
  else none

/-- Suffix of the character list strictly after the LAST occurrence of the
pattern, or none when the pattern does not occur: the str::rfind step of
extract_column followed by taking the slice after the match. -/
def afterLastOcc (pat : List Char) : List Char → Option (List Char)
  | [] => if pat.isPrefixOf ([] : List Char) then some [] else none
  | c :: rest =>
    match afterLastOcc pat rest with
    | some r => some r
    | none => if pat.isPrefixOf (c :: rest) then some ((c :: rest).drop pat.length) else none

/-- extract_column (lib.rs): find the last "column " in a serde error
message and parse the following whitespace-delimited token as a number. -/
def extract_column (msg : String) : Option Nat :=
  match afterLastOcc ("column ".data) msg.data with
  | none => none
  | some suffix =>
    parseUsize ((suffix.dropWhile Char.isWhitespace).takeWhile (fun c => !c.isWhitespace))

/-- Rust str::is_char_boundary on a UTF-8 byte sequence: index 0 and the
end are boundaries, an in-range index is a boundary when the byte there is
not a continuation byte, and an out-of-range index is not. -/
def isCharBoundary (bytes : List Nat) (i : Nat) : Bool :=
  if i = 0 then true
  else
    match bytes[i]? with
    | none => decide (i = bytes.length)
    | some b => decide (b < 0x80) || decide (0xC0 ≤ b)

/-- Rust string slicing s[start..stop] at the byte level: `none` models the
panic raised when an index is out of range, the range is inverted, or an
index is not a character boundary. -/
def strSliceBytes (bytes : List Nat) (start stop : Nat) : Option (List Nat) :=
  if start ≤ stop ∧ isCharBoundary bytes start ∧ isCharBoundary bytes stop then
    some ((bytes.drop start).take (stop - start))
  else none

/-- Decode a UTF-8 byte sequence to characters, modelling
String::from_utf8_lossy: ill-formed sequences become the replacement
character U+FFFD (with the replacement granularity approximated as one
replacement per rejected lead byte; no definition below inspects lossy
output of ill-formed bytes). -/
def utf8DecodeList : List Nat → List Char
  | [] => []
  | b :: rest =>
    if b < 0x80 then Char.ofNat b :: utf8DecodeList rest
    else if b < 0xC2 then Char.ofNat 0xFFFD :: utf8DecodeList rest
    else if b < 0xE0 then
      match rest with
      | c1 :: r =>
        if 0x80 ≤ c1 ∧ c1 < 0xC0 then
          Char.ofNat ((b - 0xC0) * 0x40 + (c1 - 0x80)) :: utf8DecodeList r
        else Char.ofNat 0xFFFD :: utf8DecodeList (c1 :: r)
      | [] => [Char.ofNat 0xFFFD]
    else if b < 0xF0 then
      match rest with
      | c1 :: c2 :: r =>
        if (0x80 ≤ c1 ∧ c1 < 0xC0) ∧ (0x80 ≤ c2 ∧ c2 < 0xC0) then
          Char.ofNat ((b - 0xE0) * 0x1000 + (c1 - 0x80) * 0x40 + (c2 - 0x80)) :: utf8DecodeList r
        else Char.ofNat 0xFFFD :: utf8DecodeList (c1 :: c2 :: r)
      | _ => [Char.ofNat 0xFFFD]
    else if b < 0xF5 then
      match rest with
      | c1 :: c2 :: c3 :: r =>
        if (0x80 ≤ c1 ∧ c1 < 0xC0) ∧ (0x80 ≤ c2 ∧ c2 < 0xC0) ∧ (0x80 ≤ c3 ∧ c3 < 0xC0) then
          Char.ofNat ((b - 0xF0) * 0x40000 + (c1 - 0x80) * 0x1000 + (c2 - 0x80) * 0x40 + (c3 - 0x80)) ::
            utf8DecodeList r
        else Char.ofNat 0xFFFD :: utf8DecodeList (c1 :: c2 :: c3 :: r)
      | _ => [Char.ofNat 0xFFFD]
    else Char.ofNat 0xFFFD :: utf8DecodeList rest
termination_by l => l.length
decreasing_by all_goals simp_wf <;> omega

/-- String form of the lossy UTF-8 decoder. -/
def utf8Decode (bytes : List Nat) : String :=
  String.mk (utf8DecodeList bytes)

/-- The error-context fragment built by http_intercept's parse-error arm
(lib.rs): when the serde message carries a column, slice the input string
50 bytes around that column; `none` models the panic when the byte slice
falls off a character boundary. The input bytes are the UTF-8 bytes of
the string produced by read_string (from_utf8_lossy), and the saturating
subtraction of Rust maps to truncated Nat subtraction. -/
def errorContextPiece (inputBytes : List Nat) (e : String) : Option String :=
  match extract_column e with
  | none => some ""
  | some col =>
    let start := col - 50
    let stop := min (col + 50) inputBytes.length
    match strSliceBytes inputBytes start stop with
    | none => none
    | some piece => some (" | context: ..." ++ utf8Decode piece ++ "...")

/-- Run the text-parse layer then a tree decoder: serde_json::from_str is
parse-to-tree (external, passed in as an Except) followed by the modelled
tree decoder. -/
def decodeInput {α : Type} (dec : Json → Except String α)
    (parsed : Except String Json) : Except String α :=
  match parsed with
  | .error e => .error e
  | .ok j => dec j

/-- http_intercept (lib.rs): on decode failure build the default output
with the error message plus the error-context fragment (returning `none`
when that fragment's byte slicing panics); on success pass the request
through with has_response = false. The source's output initializers
`context: input.context` / `request: input.request` as written do not
type-check after the moves above them; the embedding uses the computed
bindings (the mutated context and the request serialized to a JSON
value), which the surrounding code constructs for exactly this use. -/
def http_intercept (inputBytes : List Nat) (parsed : Except String Json) :
    Option HTTPInterceptOutput :=
  match decodeInput decodeHTTPInterceptInput parsed with
  | .error e =>
    match errorContextPiece inputBytes e with
    | none => none
    | some piece =>
      some ⟨⟨[]⟩, none, none, false, "Failed to parse input: " ++ e ++ piece⟩
  | .ok i =>
    some ⟨i.context.set_value "from-http" (.str "123"),
          some (encodeHTTPRequest i.request), none, false, ""⟩

/-- pre_hook (lib.rs): on decode failure return the default output with
the error populated; on success pass context and request through with
has_short_circuit = false. (The get_provider_model call in the source is
pure and its result is discarded, so it is elided.) -/
def pre_hook (parsed : Except String Json) : PreHookOutput :=
  match decodeInput decodePreHookInput parsed with
  | .error e => ⟨⟨[]⟩, none, none, false, "Failed to parse input: " ++ e⟩
  | .ok i => ⟨i.context, some i.request, none, false, ""⟩

/-- post_hook (lib.rs): on decode failure return the default output with
hook_error populated; on success add the "from-post-hook" context key and
pass response, error and has_error through with hook_error empty. -/
def post_hook (parsed : Except String Json) : PostHookOutput :=
  match decodeInput decodePostHookInput parsed with
  | .error e => ⟨⟨[]⟩, none, none, false, "Failed to parse input: " ++ e⟩
  | .ok i =>
    ⟨i.context.set_value "from-post-hook" (.str "456"),
     some i.response, some i.error, i.has_error, ""⟩

/-- http_stream_chunk_hook (lib.rs): on decode failure return the default
output with the error populated; on success add the "from-stream-chunk"
context key and pass the chunk through with has_chunk = true and
skip = false. -/
def http_stream_chunk_hook (parsed : Except String Json) : HTTPStreamChunkHookOutput :=
  match decodeInput decodeStreamChunkInput parsed with
  | .error e => ⟨⟨[]⟩, none, false, false, "Failed to parse input: " ++ e⟩
  | .ok i =>
    ⟨i.context.set_value "from-stream-chunk" (.str "rust-wasm"),
     some i.chunk, true, false, ""⟩

/-- init (lib.rs): read_string yields the empty string exactly when the
config length is 0 (from_utf8_lossy of a non-empty byte range is never
empty), modelled by the isEmpty flag; an empty config stores the default
configuration and returns 0; otherwise the config is parsed
(serde_json::from_str, modelled as the parse outcome plus the tree
decoder) — success stores the parsed configuration and returns 0, failure
returns 1 leaving the stored state unchanged. The result pairs the i32
return code with the PLUGIN_CONFIG state after the call. -/
def init (isEmpty : Bool) (parsed : Except String Json)
    (state : Option PluginConfig) : Int × Option PluginConfig :=
  if isEmpty then (0, some ⟨[]⟩)
  else
    match decodeInput decodePluginConfig parsed with
    | .ok c => (0, some c)
    | .error _ => (1, state)

/-- Input bytes used against http_intercept below: 26 copies of the
two-byte UTF-8 encoding 0xCE 0xB1 of the character U+03B1 (52 bytes of
valid UTF-8 that are not valid JSON). -/
def alphaBytes : List Nat :=
  (List.replicate 26 [0xCE, 0xB1]).flatten

/-- The spec's concrete pre_hook scenario input as a JSON tree. -/
def preHookExampleJson : Json :=
  Json.obj [("context", Json.obj [("request_id", Json.str "r1")]),
            ("request", Json.obj [("provider", Json.str "openai"),
                                  ("model", Json.str "gpt-4")])]

/-- A post_hook input with has_error = true and a populated error object. -/
def postHookExampleJson : Json :=
  Json.obj [("context", Json.obj [("request_id", Json.str "r1")]),
            ("response", Json.null),
            ("error", Json.obj [("error", Json.obj [("message", Json.str "upstream failed")]),
                                ("status_code", Json.num 500)]),
            ("has_error", Json.bool true)]

/-- A well-formed http_intercept input (with explicit nulls in the
request, as the Go host may send them). -/
def interceptExampleJson : Json :=
  Json.obj [("context", Json.obj [("request_id", Json.str "abc-123")]),
            ("request", Json.obj [("method", Json.str "POST"),
                                  ("path", Json.str "/v1/chat/completions"),
                                  ("headers", Json.null),
                                  ("body", Json.null)])]

/-- A well-formed http_stream_chunk_hook input. -/
def streamChunkExampleJson : Json :=
  Json.obj [("context", Json.obj [("request_id", Json.str "r9")]),
            ("request", Json.obj [("provider", Json.str "openai")]),
            ("chunk", Json.obj [("id", Json.str "chunk-1"),
                                ("delta", Json.str "hi")])]

/-!
Theorems. Helper lemmas come first, then one theorem per claim (with a
closed witness where the claim's theorem carries hypotheses).
-/

theorem insertKV_of_not_mem {α : Type} (m : List (String × α)) (k : String) (v : α)
    (h : ∀ p ∈ m, p.1 ≠ k) : insertKV m k v = m ++ [(k, v)] := by
  have hany : m.any (fun p => p.1 == k) = false := by
    rw [List.any_eq_false]
    intro p hp
    simpa using h p hp
  simp [insertKV, hany]

theorem foldl_insertKV_eq_append {α : Type} (fs : List (String × α)) :
    ∀ acc : List (String × α), ((acc ++ fs).map Prod.fst).Nodup →
      fs.foldl (fun m kv => insertKV m kv.1 kv.2) acc = acc ++ fs := by
  induction fs with
  | nil => intro acc _; simp
  | cons kv rest ih =>
    intro acc h
    have hsplit : (acc.map Prod.fst).Disjoint ((kv :: rest).map Prod.fst) := by
      rw [List.map_append, List.nodup_append] at h
      exact h.2.2
    have hnotin : ∀ p ∈ acc, p.1 ≠ kv.1 := by
      intro p hp hpk
      exact hsplit (hpk ▸ List.mem_map_of_mem Prod.fst hp) (by simp)
    rw [List.foldl_cons]
    have hstep : insertKV acc kv.1 kv.2 = acc ++ [kv] := by
      rw [insertKV_of_not_mem acc kv.1 kv.2 hnotin]
    rw [hstep]
    have hre : (((acc ++ [kv]) ++ rest).map Prod.fst).Nodup := by
      simpa [List.append_assoc] using h
    have := ih (acc ++ [kv]) hre
    simpa [List.append_assoc] using this

theorem normalizeKV_of_nodup {α : Type} (fs : List (String × α))
    (h : (fs.map Prod.fst).Nodup) : normalizeKV fs = fs := by
  simpa [normalizeKV] using foldl_insertKV_eq_append fs [] (by simpa using h)

/-- C7: serializing a BifrostContext and deserializing the result
reproduces exactly the same key-value map, and the serialized form is a
plain JSON object whose keys are exactly the map's keys, with no wrapper
envelope. -/
theorem context_roundtrip (c : BifrostContext)
    (h : (c.entries.map Prod.fst).Nodup) :
    decodeBifrostContext (encodeBifrostContext c) = .ok c ∧
    encodeBifrostContext c = Json.obj c.entries := by
  refine ⟨?_, rfl⟩
  obtain ⟨entries⟩ := c
  simp only [encodeBifrostContext, decodeBifrostContext]
  rw [normalizeKV_of_nodup entries h]

/-- Witness for C7 on a concrete context holding a string, a nested
object and an array. -/
theorem context_roundtrip_witness :
    decodeBifrostContext (encodeBifrostContext
      ⟨[("request_id", Json.str "r1"),
        ("nested", Json.obj [("a", Json.num 1)]),
        ("list", Json.arr [Json.bool true, Json.null])]⟩) =
      .ok ⟨[("request_id", Json.str "r1"),
            ("nested", Json.obj [("a", Json.num 1)]),
            ("list", Json.arr [Json.bool true, Json.null])]⟩ :=
  (context_roundtrip
    ⟨[("request_id", Json.str "r1"),
      ("nested", Json.obj [("a", Json.num 1)]),
      ("list", Json.arr [Json.bool true, Json.null])]⟩ (by decide)).1

theorem decodeBlock_encodeBlock (b : ChatContentBlock) :
    decodeBlock (encodeBlock b) = .ok b := by
  obtain ⟨bt, txt, iu⟩ := b
  rcases iu with _ | ⟨url, detail⟩
  · rcases txt with _ | t <;> rfl
  · rcases txt with _ | t <;> rcases detail with _ | d <;> rfl

theorem decodeBlocks_encode (bs : List ChatContentBlock) :
    decodeBlocks (bs.map encodeBlock) = .ok bs := by
  induction bs with
  | nil => rfl
  | cons b rest ih =>
    simp only [List.map_cons, decodeBlocks, decodeBlock_encodeBlock b, ih]
    rfl

/-- C8: every ChatMessageContent round-trips to the same variant with
the same payload; a JSON string always decodes to the Text variant (so
never to a Blocks list) and a JSON array never decodes to Text. -/
theorem chatMessageContent_roundtrip (c : ChatMessageContent) (s : String) (xs : List Json) :
    decodeChatMessageContent (encodeChatMessageContent c) = .ok c ∧
    decodeChatMessageContent (Json.str s) = .ok (ChatMessageContent.Text s) ∧
    (match decodeChatMessageContent (Json.arr xs) with
     | .ok (ChatMessageContent.Text _) => False
     | _ => True) := by
  refine ⟨?_, rfl, ?_⟩
  · cases c with
    | Text t => rfl
    | Blocks bs =>
      simp only [encodeChatMessageContent, decodeChatMessageContent, decodeBlockList,
        decodeBlocks_encode bs]
  · simp only [decodeChatMessageContent, decodeBlockList]
    cases decodeBlocks xs <;> simp

/-- C1: the claimed null-normalization is violated by PreHookInput —
its context field uses plain serde(default), so a payload with
context explicitly null fails to decode while omitting the key succeeds
with the default context; the claim's HTTPRequest headers case does hold
(null and omitted both give the empty map). -/
theorem preHookInput_context_null_divergence :
    decodeHTTPRequest (Json.obj [("headers", Json.null)]) = decodeHTTPRequest (Json.obj []) ∧
    (decodePreHookInput (Json.obj [("context", Json.null)])).isOk = false ∧
    decodePreHookInput (Json.obj []) = .ok ⟨⟨[]⟩, Json.null⟩ :=
  ⟨rfl, rfl, rfl⟩

/-- C2: http_intercept does not return a well-formed output on every
byte sequence — on 26 copies of the two-byte character U+03B1 the serde
parse error "expected value at line 1 column 1" (columns count bytes)
makes the error-context slice end at byte index min(1+50, 52) = 51,
which is not a character boundary, so the slice panics (modelled as
none) instead of producing an error output. -/
theorem http_intercept_panics :
    http_intercept alphaBytes (.error "expected value at line 1 column 1") = none := by
  rfl

/-- C4: pre_hook on any successfully decoded input returns
has_short_circuit = false, no short_circuit, an empty error, the input
request unchanged, and the input context unchanged. -/
theorem pre_hook_passthrough (j : Json) (i : PreHookInput)
    (h : decodePreHookInput j = .ok i) :
    pre_hook (.ok j) = ⟨i.context, some i.request, none, false, ""⟩ := by
  simp [pre_hook, decodeInput, h]

/-- Witness for C4 at the spec's scenario input (request_id "r1",
provider "openai", model "gpt-4"). -/
theorem pre_hook_passthrough_witness :
    pre_hook (.ok preHookExampleJson) =
      ⟨⟨[("request_id", Json.str "r1")]⟩,
       some (Json.obj [("provider", Json.str "openai"), ("model", Json.str "gpt-4")]),
       none, false, ""⟩ :=
  pre_hook_passthrough preHookExampleJson
    ⟨⟨[("request_id", Json.str "r1")]⟩,
     Json.obj [("provider", Json.str "openai"), ("model", Json.str "gpt-4")]⟩ rfl

/-- C5: post_hook on any successfully decoded input preserves the
has_error flag, carries the input error payload through, and leaves
hook_error empty. -/
theorem post_hook_preserves_error_flag (j : Json) (i : PostHookInput)
    (h : decodePostHookInput j = .ok i) :
    (post_hook (.ok j)).has_error = i.has_error ∧
    (post_hook (.ok j)).error = some i.error ∧
    (post_hook (.ok j)).hook_error = "" := by
  simp [post_hook, decodeInput, h]

/-- Witness for C5 at an input with has_error = true and a populated
error object. -/
theorem post_hook_preserves_error_flag_witness :
    (post_hook (.ok postHookExampleJson)).has_error = true ∧
    (post_hook (.ok postHookExampleJson)).error =
      some (Json.obj [("error", Json.obj [("message", Json.str "upstream failed")]),
                      ("status_code", Json.num 500)]) ∧
    (post_hook (.ok postHookExampleJson)).hook_error = "" :=
  post_hook_preserves_error_flag postHookExampleJson
    ⟨⟨[("request_id", Json.str "r1")]⟩, Json.null,
     Json.obj [("error", Json.obj [("message", Json.str "upstream failed")]),
               ("status_code", Json.num 500)], true⟩ rfl

/-- C6: init with empty config input returns 0 and stores the default
(empty) configuration; non-empty input that fails to parse or decode
returns the nonzero code 1 (leaving the stored state unchanged);
non-empty valid JSON for the schema returns 0 and stores the parsed
configuration. -/
theorem init_spec (parsed : Except String Json) (st : Option PluginConfig) :
    init true parsed st = (0, some ⟨[]⟩) ∧
    (∀ e : String, init false (.error e) st = (1, st)) ∧
    (∀ j c, decodePluginConfig j = .ok c → init false (.ok j) st = (0, some c)) ∧
    (∀ j e, decodePluginConfig j = .error e → init false (.ok j) st = (1, st)) := by
  refine ⟨rfl, fun e => rfl, fun j c h => ?_, fun j e h => ?_⟩
  · simp [init, decodeInput, h]
  · simp [init, decodeInput, h]

/-- Witness for C6: empty input, a valid JSON object config, and a
non-object config that fails the schema. -/
theorem init_spec_witness :
    init true (.error "EOF while parsing a value at line 1 column 0") none = (0, some ⟨[]⟩) ∧
    init false (.ok (Json.obj [("limit", Json.num 10)])) none =
      (0, some ⟨[("limit", Json.num 10)]⟩) ∧
    init false (.ok (Json.str "nope")) none = (1, none) :=
  ⟨(init_spec (.error "EOF while parsing a value at line 1 column 0") none).1,
   (init_spec (.error "EOF while parsing a value at line 1 column 0") none).2.2.1 _ _ rfl,
   (init_spec (.error "EOF while parsing a value at line 1 column 0") none).2.2.2 _ _ rfl⟩

/-- C9: http_intercept on any successfully decoded input passes the
request through unchanged (serialized back to a JSON value), with
has_response = false, no synthesized response, and an empty error. -/
theorem http_intercept_passthrough (bytes : List Nat) (j : Json) (i : HTTPInterceptInput)
    (h : decodeHTTPInterceptInput j = .ok i) :
    http_intercept bytes (.ok j) =
      some ⟨i.context.set_value "from-http" (Json.str "123"),
            some (encodeHTTPRequest i.request), none, false, ""⟩ := by
  simp [http_intercept, decodeInput, h]

/-- Witness for C9 at a concrete intercept input with explicit nulls. -/
theorem http_intercept_passthrough_witness :
    http_intercept [] (.ok interceptExampleJson) =
      some ⟨BifrostContext.set_value ⟨[("request_id", Json.str "abc-123")]⟩
              "from-http" (Json.str "123"),
            some (encodeHTTPRequest ⟨"POST", "/v1/chat/completions", [], [], ""⟩),
            none, false, ""⟩ :=
  http_intercept_passthrough [] interceptExampleJson
    ⟨⟨[("request_id", Json.str "abc-123")]⟩,
     ⟨"POST", "/v1/chat/completions", [], [], ""⟩⟩ rfl

/-- C10: http_stream_chunk_hook on any successfully decoded input
returns has_chunk = true, skip = false, the input chunk unchanged, an
empty error, and the input context extended with "from-stream-chunk"
mapped to the JSON string "rust-wasm". -/
theorem stream_chunk_passthrough (j : Json) (i : HTTPStreamChunkHookInput)
    (h : decodeStreamChunkInput j = .ok i) :
    http_stream_chunk_hook (.ok j) =
      ⟨i.context.set_value "from-stream-chunk" (Json.str "rust-wasm"),
       some i.chunk, true, false, ""⟩ := by
  simp [http_stream_chunk_hook, decodeInput, h]

/-- Witness for C10 at a concrete stream-chunk input. -/
theorem stream_chunk_passthrough_witness :
    http_stream_chunk_hook (.ok streamChunkExampleJson) =
      ⟨BifrostContext.set_value ⟨[("request_id", Json.str "r9")]⟩
         "from-stream-chunk" (Json.str "rust-wasm"),
       some (Json.obj [("id", Json.str "chunk-1"), ("delta", Json.str "hi")]),
       true, false, ""⟩ :=
  stream_chunk_passthrough streamChunkExampleJson
    ⟨⟨[("request_id", Json.str "r9")]⟩,
     Json.obj [("provider", Json.str "openai")],
     Json.obj [("id", Json.str "chunk-1"), ("delta", Json.str "hi")]⟩ rfl

/-- C3: for 32-bit offset and length, unpacking the packed 64-bit
transport value recovers exactly the pair (offset in the high 32 bits,
length in the low 32 bits), and packing (0, 0) yields 0. -/
theorem unpack_pack_result (ptr len : Nat) (h1 : ptr < 2 ^ 32) (h2 : len < 2 ^ 32) :
    unpack (pack_result ptr len) = (ptr, len) ∧ pack_result 0 0 = 0 := by
  refine ⟨?_, by decide⟩
  unfold unpack pack_result
  rw [Prod.mk.injEq]
  constructor
  · apply Nat.eq_of_testBit_eq
    intro i
    rw [Nat.testBit_shiftRight, Nat.testBit_mod_two_pow, Nat.testBit_lor,
        Nat.testBit_shiftLeft]
    have hlen : len.testBit (32 + i) = false :=
      Nat.testBit_lt_two_pow
        (lt_of_lt_of_le h2 (Nat.pow_le_pow_right (by omega) (by omega)))
    have hge : decide (32 + i ≥ 32) = true := by simp
    have hidx : 32 + i - 32 = i := by omega
    rw [hlen, hge, hidx, Bool.true_and, Bool.or_false]
    by_cases hi : i < 32
    · have hlt : decide (32 + i < 64) = true := by
        rw [decide_eq_true_eq]; omega
      rw [hlt, Bool.true_and]
    · have hlt : decide (32 + i < 64) = false := by
        rw [decide_eq_false_iff_not]; omega
      have hptr : ptr.testBit i = false :=
        Nat.testBit_lt_two_pow
          (lt_of_lt_of_le h1 (Nat.pow_le_pow_right (by omega) (by omega)))
      rw [hlt, hptr, Bool.false_and]
  · apply Nat.eq_of_testBit_eq
    intro i
    rw [Nat.testBit_mod_two_pow, Nat.testBit_mod_two_pow, Nat.testBit_lor,
        Nat.testBit_shiftLeft]
    by_cases hi : i < 32
    · have h32 : decide (i < 32) = true := by rw [decide_eq_true_eq]; omega
      have h64 : decide (i < 64) = true := by rw [decide_eq_true_eq]; omega
      have hge : decide (i ≥ 32) = false := by rw [decide_eq_false_iff_not]; omega
      rw [h32, h64, hge, Bool.true_and, Bool.true_and, Bool.false_and, Bool.false_or]
    · have h32 : decide (i < 32) = false := by rw [decide_eq_false_iff_not]; omega
      have hlenbit : len.testBit i = false :=
        Nat.testBit_lt_two_pow
          (lt_of_lt_of_le h2 (Nat.pow_le_pow_right (by omega) (by omega)))
      rw [h32, hlenbit, Bool.false_and]

/-- Witness for C3 at offset 3, length 5 (and the zero pair). -/
theorem unpack_pack_result_witness :
    unpack (pack_result 3 5) = (3, 5) ∧ pack_result 0 0 = 0 :=
  unpack_pack_result 3 5 (by decide) (by decide)

end Bifrost
